import Mathlib

/-!
Verification of the `data_models` crate: a fixed lookup table from data
models (platform conventions for C integer widths) to byte sizes of six
type categories, and a reverse lookup guessing the model from the sizes
of int, long and pointer.

The Lean definitions below are a shallow embedding of `src/lib.rs`:
each Rust `match` is transcribed arm by arm.
-/

namespace DataModels

/-- The `DataModel` enum from `src/lib.rs`: the choices of bit width of
integer types by each platform, plus a sentinel `Unknown`. -/
inductive DataModel where
  | IP16
  | IP16L32
  | LP32
  | ILP32
  | LLP64
  | LP64
  | ILP64
  | SILP64
  | Unknown
deriving DecidableEq, Fintype, Repr

/-- The six queryable type categories, one per marker type
(`Char`, `Short`, `Int`, `Long`, `LongLong`, `Pointer`) of the crate. -/
inductive TypeCategory where
  | Char
  | Short
  | Int
  | Long
  | LongLong
  | Pointer
deriving DecidableEq, Fintype, Repr

open DataModel TypeCategory

/-- `impl SizeOf<Char> for DataModel`: all models report 1 byte for
`char` except `Unknown`, which reports 0. -/
def sizeOfChar : DataModel → Nat
  | IP16 | IP16L32 | LP32 | ILP32 | LLP64 | LP64 | ILP64 | SILP64 => 1
  | Unknown => 0

/-- `impl SizeOf<Short> for DataModel`. -/
def sizeOfShort : DataModel → Nat
  | IP16L32 | LP32 | ILP32 | LLP64 | LP64 | ILP64 => 2
  | SILP64 => 8
  | Unknown | IP16 => 0

/-- `impl SizeOf<Int> for DataModel`. -/
def sizeOfInt : DataModel → Nat
  | IP16 | IP16L32 | LP32 => 2
  | ILP32 | LLP64 | LP64 => 4
  | ILP64 | SILP64 => 8
  | Unknown => 0

/-- `impl SizeOf<Long> for DataModel`. -/
def sizeOfLong : DataModel → Nat
  | IP16L32 | LP32 | ILP32 | LLP64 => 4
  | LP64 | ILP64 | SILP64 => 8
  | Unknown | IP16 => 0

/-- `impl SizeOf<LongLong> for DataModel`. -/
def sizeOfLongLong : DataModel → Nat
  | LP32 | ILP32 | LLP64 | LP64 | ILP64 | SILP64 => 8
  | Unknown | IP16 | IP16L32 => 0

/-- `impl SizeOf<Pointer> for DataModel`. -/
def sizeOfPointer : DataModel → Nat
  | IP16 | IP16L32 => 2
  | LP32 | ILP32 => 4
  | LLP64 | LP64 | ILP64 | SILP64 => 8
  | Unknown => 0

/-- `DataModel::size_of::<T>`: dispatch to the `SizeOf<T>` impl selected
by the type category. -/
def size_of (m : DataModel) : TypeCategory → Nat
  | .Char => sizeOfChar m
  | .Short => sizeOfShort m
  | .Int => sizeOfInt m
  | .Long => sizeOfLong m
  | .LongLong => sizeOfLongLong m
  | .Pointer => sizeOfPointer m

/-- `DataModel::new`: guess the data model from the byte sizes of
int, long and pointer; unmatched triples give `Unknown`. -/
def new (int long pointer : Nat) : DataModel :=
  match int, long, pointer with
  | 2, 0, 2 => IP16
  | 2, 4, 2 => IP16L32
  | 2, 4, 4 => LP32
  | 4, 4, 4 => ILP32
  | 4, 4, 8 => LLP64
  | 4, 8, 8 => LP64
  | 8, 8, 8 => ILP64
  | _, _, _ => Unknown

/-- The 9-by-6 size table from spec section 8, transcribed from the
spec rather than the code, for comparison with `size_of`.  Each row is
the tuple (Char, Short, Int, Long, LongLong, Pointer). -/
def spec_table (m : DataModel) (c : TypeCategory) : Nat :=
  let row : Nat × Nat × Nat × Nat × Nat × Nat :=
    match m with
    | IP16 => (1, 0, 2, 0, 0, 2)
    | IP16L32 => (1, 2, 2, 4, 0, 2)
    | LP32 => (1, 2, 2, 4, 8, 4)
    | ILP32 => (1, 2, 4, 4, 8, 4)
    | LLP64 => (1, 2, 4, 4, 8, 8)
    | LP64 => (1, 2, 4, 8, 8, 8)
    | ILP64 => (1, 2, 8, 8, 8, 8)
    | SILP64 => (1, 8, 8, 8, 8, 8)
    | Unknown => (0, 0, 0, 0, 0, 0)
  match c with
  | .Char => row.1
  | .Short => row.2.1
  | .Int => row.2.2.1
  | .Long => row.2.2.2.1
  | .LongLong => row.2.2.2.2.1
  | .Pointer => row.2.2.2.2.2

/-- The reverse-lookup table as the spec words it: the seven matched
triples, everything else mapping to `Unknown`.  Transcribed from the
spec, for comparison with `new`. -/
def spec_new (int long pointer : Nat) : DataModel :=
  if int = 2 ∧ long = 0 ∧ pointer = 2 then IP16
  else if int = 2 ∧ long = 4 ∧ pointer = 2 then IP16L32
  else if int = 2 ∧ long = 4 ∧ pointer = 4 then LP32
  else if int = 4 ∧ long = 4 ∧ pointer = 4 then ILP32
  else if int = 4 ∧ long = 4 ∧ pointer = 8 then LLP64
  else if int = 4 ∧ long = 8 ∧ pointer = 8 then LP64
  else if int = 8 ∧ long = 8 ∧ pointer = 8 then ILP64
  else Unknown

/-- Helper: the code's `new` agrees with the spec's reverse-lookup
table on every input triple. -/
theorem new_eq_spec_new (int long pointer : Nat) :
    new int long pointer = spec_new int long pointer := by
  unfold new spec_new
  split <;> simp_all
  split_ifs <;> simp_all

/-- Claim C1: for every DataModel `m` and TypeCategory `c`, `size_of m c`
returns exactly the value of the 9-by-6 table of spec section 8, with
rows (Char, Short, Int, Long, LongLong, Pointer):
IP16 (1,0,2,0,0,2), IP16L32 (1,2,2,4,0,2), LP32 (1,2,2,4,8,4),
ILP32 (1,2,4,4,8,4), LLP64 (1,2,4,4,8,8), LP64 (1,2,4,8,8,8),
ILP64 (1,2,8,8,8,8), SILP64 (1,8,8,8,8,8), Unknown (0,0,0,0,0,0). -/
theorem size_of_matches_spec_table (m : DataModel) (c : TypeCategory) :
    size_of m c = spec_table m c := by
  cases m <;> cases c <;> rfl

/-- Claim C2: `new` returns IP16 for (2,0,2), IP16L32 for (2,4,2),
LP32 for (2,4,4), ILP32 for (4,4,4), LLP64 for (4,4,8), LP64 for
(4,8,8), ILP64 for (8,8,8), and Unknown for every other triple, i.e.
it agrees with the spec's reverse-lookup table on every input. -/
theorem new_matches_spec_table (int long pointer : Nat) :
    new int long pointer = spec_new int long pointer :=
  new_eq_spec_new int long pointer

/-- Claim C3: `new` never returns SILP64, and in particular
`new 8 8 8` is ILP64, not SILP64. -/
theorem new_never_SILP64 :
    (∀ int long pointer : Nat, new int long pointer ≠ SILP64) ∧
    new 8 8 8 = ILP64 := by
  refine ⟨fun int long pointer => ?_, rfl⟩
  rw [new_eq_spec_new]
  unfold spec_new
  split_ifs <;> simp

/-- Claim C4: `size_of` is total: for every model (Unknown included) and
every category it returns an unsigned integer value, always one of the
byte widths 0, 1, 2, 4 or 8; there is no failure branch. -/
theorem size_of_total (m : DataModel) (c : TypeCategory) :
    size_of m c = 0 ∨ size_of m c = 1 ∨ size_of m c = 2 ∨
    size_of m c = 4 ∨ size_of m c = 8 := by
  cases m <;> cases c <;> simp [size_of, sizeOfChar, sizeOfShort,
    sizeOfInt, sizeOfLong, sizeOfLongLong, sizeOfPointer]

/-- Claim C5: in every model whose char, short, int, long and long-long
sizes are all non-zero, those five sizes are non-decreasing in the
conventional promotion order. -/
theorem size_of_promotion_monotone (m : DataModel)
    (h : size_of m .Char ≠ 0 ∧ size_of m .Short ≠ 0 ∧
      size_of m .Int ≠ 0 ∧ size_of m .Long ≠ 0 ∧
      size_of m .LongLong ≠ 0) :
    size_of m .Char ≤ size_of m .Short ∧
    size_of m .Short ≤ size_of m .Int ∧
    size_of m .Int ≤ size_of m .Long ∧
    size_of m .Long ≤ size_of m .LongLong := by
  revert h
  cases m <;> decide

/-- Witness for C5 at the LP64 model, whose five sizes 1,2,4,8,8 are all
non-zero and non-decreasing. -/
theorem size_of_promotion_monotone_witness :
    size_of LP64 .Char ≤ size_of LP64 .Short ∧
    size_of LP64 .Short ≤ size_of LP64 .Int ∧
    size_of LP64 .Int ≤ size_of LP64 .Long ∧
    size_of LP64 .Long ≤ size_of LP64 .LongLong :=
  size_of_promotion_monotone LP64 (by decide)

/-- Claim C6: for every model other than SILP64 and Unknown, feeding its
own int, long and pointer sizes back into `new` returns the model
itself. -/
theorem new_size_of_round_trip (m : DataModel)
    (hs : m ≠ SILP64) (hu : m ≠ Unknown) :
    new (size_of m .Int) (size_of m .Long) (size_of m .Pointer) = m := by
  cases m <;> simp_all <;> rfl

/-- Witness for C6 at the ILP32 model. -/
theorem new_size_of_round_trip_witness :
    new (size_of ILP32 .Int) (size_of ILP32 .Long)
      (size_of ILP32 .Pointer) = ILP32 :=
  new_size_of_round_trip ILP32 (by decide) (by decide)

/-- Claim C7: `new` has no error path: it returns Unknown exactly when
the input triple is none of the seven matched triples, and in
particular `new 9 9 9` is Unknown. -/
theorem new_unknown_iff_unmatched :
    (∀ int long pointer : Nat,
      new int long pointer = Unknown ↔
      ¬ ((int = 2 ∧ long = 0 ∧ pointer = 2) ∨
        (int = 2 ∧ long = 4 ∧ pointer = 2) ∨
        (int = 2 ∧ long = 4 ∧ pointer = 4) ∨
        (int = 4 ∧ long = 4 ∧ pointer = 4) ∨
        (int = 4 ∧ long = 4 ∧ pointer = 8) ∨
        (int = 4 ∧ long = 8 ∧ pointer = 8) ∨
        (int = 8 ∧ long = 8 ∧ pointer = 8))) ∧
    new 9 9 9 = Unknown := by
  refine ⟨fun int long pointer => ?_, rfl⟩
  rw [new_eq_spec_new]
  unfold spec_new
  split_ifs <;> simp_all

/-- Claim C8: `size_of` and `new` are deterministic pure functions: two
calls with identical inputs return identical outputs. -/
theorem size_of_and_new_deterministic :
    (∀ (m1 m2 : DataModel) (c1 c2 : TypeCategory),
      m1 = m2 → c1 = c2 → size_of m1 c1 = size_of m2 c2) ∧
    (∀ i1 l1 p1 i2 l2 p2 : Nat, i1 = i2 → l1 = l2 → p1 = p2 →
      new i1 l1 p1 = new i2 l2 p2) := by
  constructor
  · intro m1 m2 c1 c2 hm hc
    rw [hm, hc]
  · intro i1 l1 p1 i2 l2 p2 hi hl hp
    rw [hi, hl, hp]

/-- Witness for C8 at the pair (LP64, Pointer) and the triple
(4, 8, 8). -/
theorem size_of_and_new_deterministic_witness :
    size_of LP64 .Pointer = size_of LP64 .Pointer ∧
    new 4 8 8 = new 4 8 8 :=
  ⟨size_of_and_new_deterministic.1 LP64 LP64 .Pointer .Pointer rfl rfl,
    size_of_and_new_deterministic.2 4 8 8 4 8 8 rfl rfl rfl⟩

/-- Claim C9: in every model of the table, an int never occupies more
bytes than a pointer. -/
theorem int_le_pointer (m : DataModel) :
    size_of m .Int ≤ size_of m .Pointer := by
  cases m <;> decide

/-- Claim C10: the full row of six sizes uniquely identifies the model:
any two distinct variants differ at some category; in particular ILP64
and SILP64 agree on Int, Long and Pointer but differ at Short. -/
theorem row_identifies_model :
    (∀ m1 m2 : DataModel, m1 ≠ m2 →
      ∃ c : TypeCategory, size_of m1 c ≠ size_of m2 c) ∧
    size_of ILP64 .Int = size_of SILP64 .Int ∧
    size_of ILP64 .Long = size_of SILP64 .Long ∧
    size_of ILP64 .Pointer = size_of SILP64 .Pointer ∧
    size_of ILP64 .Short ≠ size_of SILP64 .Short := by
  refine ⟨fun m1 m2 h => ?_, rfl, rfl, rfl, by decide⟩
  cases m1 <;> cases m2 <;> simp_all <;>
    first
      | exact ⟨.Char, by decide⟩
      | exact ⟨.Short, by decide⟩
      | exact ⟨.Int, by decide⟩
      | exact ⟨.Long, by decide⟩
      | exact ⟨.LongLong, by decide⟩
      | exact ⟨.Pointer, by decide⟩

/-- Witness for C10 at the distinct pair (ILP64, SILP64). -/
theorem row_identifies_model_witness :
    ∃ c : TypeCategory, size_of ILP64 c ≠ size_of SILP64 c :=
  row_identifies_model.1 ILP64 SILP64 (by decide)

end DataModels
